import Mathlib

/-
Shallow embedding of pychemia/population/orbitaldftu.py.

The module builds a population of ABINIT inputs parameterized by the
correlation matrices dmatpawu.  Each Python function used by the claims is
translated here over exact arithmetic (Int, Rat); fallible Python code is
modelled with Except over an explicit error type mirroring the Python
exception classes.  External numeric collaborators (numpy eigensolver,
numpy euclidean norm) are abstracted as hypotheses or function parameters.
-/

namespace OrbitalDftu

/-- Python exception classes that the translated code can raise.
ConfigurationError appears in the specification only; it is included so that
statements about it can be expressed. -/
inductive PyErr where
  | valueError (msg : String)
  | attributeError (msg : String)
  | nameError (msg : String)
  | keyError (msg : String)
  | indexError (msg : String)
  | configurationError (msg : String)
  deriving DecidableEq, Repr

/-- True exactly on a successful (non-raising) result. -/
def exceptOk {α : Type} : Except PyErr α → Bool
  | Except.ok _ => true
  | Except.error _ => false

/-- Spin-configuration dispatch of OrbitalDFTU.__init__ (lines 82-107).
The chain of if/elif statements has no final else branch, so for an
unsupported combination the attribute nmatrices is never assigned; this is
modelled by returning none. -/
def computeNmatrices (nsppol nspinor nspden natpawu : Nat) : Option Nat :=
  if nsppol = 1 ∧ nspinor = 1 ∧ nspden = 1 then some natpawu
  else if nsppol = 2 ∧ nspinor = 1 ∧ nspden = 2 then some (2 * natpawu)
  else if nsppol = 1 ∧ nspinor = 1 ∧ nspden = 2 then some natpawu
  else if nsppol = 1 ∧ nspinor = 2 ∧ nspden = 4 then some (2 * natpawu)
  else if nsppol = 1 ∧ nspinor = 2 ∧ nspden = 1 then some (2 * natpawu)
  else none

/-- The five supported spin configurations, as listed in the if/elif chain. -/
def supportedSpinConfig (nsppol nspinor nspden : Nat) : Bool :=
  (nsppol == 1 && nspinor == 1 && nspden == 1) ||
  (nsppol == 2 && nspinor == 1 && nspden == 2) ||
  (nsppol == 1 && nspinor == 1 && nspden == 2) ||
  (nsppol == 1 && nspinor == 2 && nspden == 4) ||
  (nsppol == 1 && nspinor == 2 && nspden == 1)

/-- The constructor inputs that matter for the claims: the structural
metadata already extracted from the abinit input file (natpawu from spinat,
nsppol, nspinor, nspden with their documented defaults applied) together
with the two user-supplied lists. -/
structure InitArgs where
  natpawu : Nat
  nsppol : Nat
  nspinor : Nat
  nspden : Nat
  num_electrons_spin : List Int
  connections : List Int
  deriving DecidableEq, Repr

/-- The state of a constructed OrbitalDFTU population object. -/
structure OrbState where
  natpawu : Nat
  nsppol : Nat
  nspinor : Nat
  nspden : Nat
  nmatrices : Nat
  num_electrons_spin : List Int
  connections : List Int
  deriving DecidableEq, Repr

/-- Message of the AttributeError raised at line 110 when self.nmatrices was
never assigned by the if/elif chain. -/
def nmatricesUnsetMsg : String := "OrbitalDFTU object has no attribute nmatrices"

def electronsLenMsg : String :=
  "Number of electrons on each spin channel is not consistent with the number of matrices defined on dmatpawu"

def connectionsLenMsg : String :=
  "Number of connections between matrices is not consistent with the number of matrices defined on dmatpawu"

/-- OrbitalDFTU.__init__, lines 82-117.  Faithful points: (a) when no spin
case matches, reading self.nmatrices at line 110 raises AttributeError;
(b) the second validation (lines 115-117) tests
len(self.num_electrons_spin) != self.nmatrices again, exactly as written in
the source, instead of testing the length of connections; connections is
stored without any length check of its own. -/
def orbitalDFTU_init (a : InitArgs) : Except PyErr OrbState :=
  match computeNmatrices a.nsppol a.nspinor a.nspden a.natpawu with
  | none => Except.error (PyErr.attributeError nmatricesUnsetMsg)
  | some nm =>
    if a.num_electrons_spin.length ≠ nm then
      Except.error (PyErr.valueError electronsLenMsg)
    else if a.num_electrons_spin.length ≠ nm then
      Except.error (PyErr.valueError connectionsLenMsg)
    else
      Except.ok { natpawu := a.natpawu, nsppol := a.nsppol, nspinor := a.nspinor,
                  nspden := a.nspden, nmatrices := nm,
                  num_electrons_spin := a.num_electrons_spin,
                  connections := a.connections }

/-- True exactly when a constructor result is a raised ConfigurationError. -/
def failsWithConfigurationError : Except PyErr OrbState → Bool
  | Except.error (PyErr.configurationError _) => true
  | _ => false

/-- Constructor arguments with the malformed spin configuration nsppol = 3. -/
def argsC5 : InitArgs :=
  { natpawu := 1, nsppol := 3, nspinor := 1, nspden := 2,
    num_electrons_spin := [1], connections := [0] }

/-- Constructor arguments where connections has the wrong length (1) while
num_electrons_spin has the correct length (nmatrices = natpawu = 2 in the
non-magnetic case). -/
def argsC8 : InitArgs :=
  { natpawu := 2, nsppol := 1, nspinor := 1, nspden := 1,
    num_electrons_spin := [1, 1], connections := [0] }

theorem computeNmatrices_eq_none_of_unsupported (nsppol nspinor nspden natpawu : Nat)
    (h : supportedSpinConfig nsppol nspinor nspden = false) :
    computeNmatrices nsppol nspinor nspden natpawu = none := by
  unfold computeNmatrices
  split_ifs with h1 h2 h3 h4 h5
  · obtain ⟨e1, e2, e3⟩ := h1; subst e1; subst e2; subst e3; simp [supportedSpinConfig] at h
  · obtain ⟨e1, e2, e3⟩ := h2; subst e1; subst e2; subst e3; simp [supportedSpinConfig] at h
  · obtain ⟨e1, e2, e3⟩ := h3; subst e1; subst e2; subst e3; simp [supportedSpinConfig] at h
  · obtain ⟨e1, e2, e3⟩ := h4; subst e1; subst e2; subst e3; simp [supportedSpinConfig] at h
  · obtain ⟨e1, e2, e3⟩ := h5; subst e1; subst e2; subst e3; simp [supportedSpinConfig] at h
  · rfl

/-- C5 counterexample: for nsppol = 3 the construction does not fail with
ConfigurationError; it raises AttributeError because self.nmatrices was never
assigned. -/
theorem c5_counterexample :
    failsWithConfigurationError (orbitalDFTU_init argsC5) = false ∧
    orbitalDFTU_init argsC5 = Except.error (PyErr.attributeError nmatricesUnsetMsg) :=
  ⟨rfl, rfl⟩

/-- C5 (amended): for every combination of (nsppol, nspinor, nspden) other
than the five supported cases, construction of the population fails — with
AttributeError (self.nmatrices never assigned, read at the first length
check), since no ConfigurationError exists in the code — rather than
silently defaulting nmatrices. -/
theorem c5_unsupported_spin_raises (a : InitArgs)
    (h : supportedSpinConfig a.nsppol a.nspinor a.nspden = false) :
    orbitalDFTU_init a = Except.error (PyErr.attributeError nmatricesUnsetMsg) := by
  unfold orbitalDFTU_init
  rw [computeNmatrices_eq_none_of_unsupported a.nsppol a.nspinor a.nspden a.natpawu h]

/-- Witness for C5 at the concrete arguments argsC5 (nsppol = 3). -/
theorem c5_unsupported_spin_raises_witness :
    supportedSpinConfig argsC5.nsppol argsC5.nspinor argsC5.nspden = false ∧
    orbitalDFTU_init argsC5 = Except.error (PyErr.attributeError nmatricesUnsetMsg) :=
  ⟨rfl, c5_unsupported_spin_raises argsC5 rfl⟩

/-- C8: with connections of length 1 and nmatrices = 2 (num_electrons_spin of
the correct length 2), construction succeeds instead of raising ValueError:
the second length check re-tests num_electrons_spin, so a mismatched
connections list is accepted. -/
theorem c8_mismatched_connections_accepted :
    argsC8.connections.length = 1 ∧
    computeNmatrices argsC8.nsppol argsC8.nspinor argsC8.nspden argsC8.natpawu = some 2 ∧
    orbitalDFTU_init argsC8 =
      Except.ok { natpawu := 2, nsppol := 1, nspinor := 1, nspden := 1, nmatrices := 2,
                  num_electrons_spin := [1, 1], connections := [0] } :=
  ⟨rfl, rfl, rfl⟩

/-- itertools.product(range(2), repeat = n) at line 167: all 0/1 tuples of
length n, in lexicographic order with the first coordinate varying slowest. -/
def product01 : Nat → List (List Nat)
  | 0 => [[]]
  | n + 1 => (product01 n).map (fun x => 0 :: x) ++ (product01 n).map (fun x => 1 :: x)

/-- Line 167: val = [x for x in product if sum(x) == nelect]. -/
def valList (ndim : Nat) (nelect : Int) : List (List Nat) :=
  (product01 ndim).filter (fun x => (x.sum : Int) == nelect)

/-- np.random.randint(0) on an empty candidate list raises ValueError. -/
def randintEmptyMsg : String := "low is greater or equal to high"

/-- Line 170: ii is a tuple taken from the itertools.product list, and a
Python tuple has no flatten method. -/
def tupleFlattenMsg : String := "tuple object has no attribute flatten"

/-- new_entry, line 219: data with key R still holds a plain Python list
(never rebound to a numpy array), and a list has no flatten method. -/
def listFlattenMsg : String := "list object has no attribute flatten"

def indexOutOfRangeMsg : String := "list index out of range"

/-- The for-loop of add_random (lines 159-181) followed by the new_entry call
(line 185), translated iteration by iteration; fuel counts the remaining
iterations, i is the current loop index.

Faithful points, in source order inside one iteration:
(a) the loop reads self.connections[i] (IndexError when i is out of range of
    the list, which the constructor does not guarantee has length nmatrices);
(b) fresh branch (lines 161-174): it first rebinds matrix_i, matrix_d and
    eigvec to fresh zero arrays, reads nelect = self.num_electrons_spin[i]
    (IndexError when out of range), builds val, and draws
    ii = val[np.random.randint(len(val))] — ValueError when val is empty,
    since np.random.randint(0) rejects an empty range; otherwise line 170
    evaluates ii.flatten() on a tuple, raising AttributeError before any row
    is written and before matrices_defined.append at line 172 runs;
(c) copy branch (lines 176-181): row assignments between entries of the
    initial plain lists, which always succeed and change nothing observable
    (the rows are all None, and matrices_defined never grows because the
    fresh branch raises before its append);
(d) when the loop finishes, data is passed to new_entry, whose first step
    flattens data with key R: because the fresh branch always raises before
    completing, a finished loop means the arrays are still the initial plain
    Python lists, and list.flatten raises AttributeError. -/
def addRandomGo (st : OrbState) (ndim : Nat) (defined : List Int) :
    Nat → Nat → Except PyErr Unit
  | 0, _ => Except.error (PyErr.attributeError listFlattenMsg)
  | fuel + 1, i =>
    match st.connections.get? i with
    | none => Except.error (PyErr.indexError indexOutOfRangeMsg)
    | some c =>
      if c ∈ defined then
        addRandomGo st ndim defined fuel (i + 1)
      else
        match st.num_electrons_spin.get? i with
        | none => Except.error (PyErr.indexError indexOutOfRangeMsg)
        | some nelect =>
          if (valList ndim nelect).isEmpty then
            Except.error (PyErr.valueError randintEmptyMsg)
          else
            Except.error (PyErr.attributeError tupleFlattenMsg)

/-- add_random (lines 142-185): runs the loop over i = 0 .. nmatrices-1 and
then hands the data dictionary to new_entry. -/
def add_random (st : OrbState) (ndim : Nat) : Except PyErr Unit :=
  addRandomGo st ndim [] st.nmatrices 0

/-- A population state for C2: two matrices tied by the same connection tag,
in the collinear ferromagnetic case (nsppol=2, nspinor=1, nspden=2,
natpawu=1, hence nmatrices=2), three electrons in each spin channel. -/
def stC2 : OrbState :=
  { natpawu := 1, nsppol := 2, nspinor := 1, nspden := 2, nmatrices := 2,
    num_electrons_spin := [3, 3], connections := [0, 0] }

/-- A population state for C3: a single d-type matrix holding two electrons. -/
def stC3 : OrbState :=
  { natpawu := 1, nsppol := 1, nspinor := 1, nspden := 1, nmatrices := 1,
    num_electrons_spin := [2], connections := [7] }

/-- A population state for C7: block 0 feasible (3 electrons in 5 orbitals),
block 1 infeasible (6 electrons in 5 orbitals), distinct connection tags. -/
def stC7 : OrbState :=
  { natpawu := 2, nsppol := 1, nspinor := 1, nspden := 1, nmatrices := 2,
    num_electrons_spin := [3, 6], connections := [0, 1] }

/-- A population state for the C7 witness: the first (and only) block is
already infeasible. -/
def stC7w : OrbState :=
  { natpawu := 1, nsppol := 1, nspinor := 1, nspden := 1, nmatrices := 1,
    num_electrons_spin := [6], connections := [0] }

/-- A population state for C10: the collinear ferromagnetic case with
natpawu = 1 and nmatrices = 2, the shape that makes the row writes at block
index 1 exceed the natpawu rows allocated for the arrays. -/
def stC10 : OrbState :=
  { natpawu := 1, nsppol := 2, nspinor := 1, nspden := 2, nmatrices := 2,
    num_electrons_spin := [1, 1], connections := [0, 0] }

/-- C2: add_random never produces a genome: at the first fresh block it
raises AttributeError (line 170 calls flatten on a tuple), so no pair of
generated blocks exists to satisfy the connection-propagation invariant. -/
theorem c2_add_random_raises_before_any_genome :
    add_random stC2 5 = Except.error (PyErr.attributeError tupleFlattenMsg) := rfl

/-- C3: add_random raises AttributeError at the first fresh block, before the
occupation vector is ever stored, so no generated block carries an occupation
vector at all. -/
theorem c3_add_random_raises_before_occupations :
    add_random stC3 5 = Except.error (PyErr.attributeError tupleFlattenMsg) := rfl

/-- C7 counterexample: with block 1 infeasible (6 electrons in 5 orbitals),
genome generation does not fail with ValueError: it fails with
AttributeError while processing the feasible block 0. -/
theorem c7_counterexample :
    add_random stC7 5 = Except.error (PyErr.attributeError tupleFlattenMsg) := rfl

theorem mem_product01_sum_le (n : Nat) (x : List Nat) (hx : x ∈ product01 n) :
    x.sum ≤ n := by
  induction n generalizing x with
  | zero =>
    simp only [product01, List.mem_singleton] at hx
    subst hx; simp
  | succ k ih =>
    simp only [product01, List.mem_append, List.mem_map] at hx
    rcases hx with ⟨y, hy, rfl⟩ | ⟨y, hy, rfl⟩ <;>
      · have := ih y hy
        simp only [List.sum_cons]
        omega

theorem valList_eq_nil_of_gt (ndim : Nat) (nelect : Int) (h : (ndim : Int) < nelect) :
    valList ndim nelect = [] := by
  unfold valList
  rw [List.filter_eq_nil_iff]
  intro x hx
  have hsum := mem_product01_sum_le ndim x hx
  simp only [beq_iff_eq]
  intro hEq
  have : (x.sum : Int) ≤ (ndim : Int) := Int.ofNat_le.mpr hsum
  omega

/-- C7 (amended): when the first block is infeasible
(num_electrons_spin[0] > ndim), add_random fails with ValueError — but the
error comes from the random draw over the empty candidate list produced by
the full enumeration, not from a check performed before enumeration; for an
infeasible later block, the AttributeError raised while processing the first
fresh feasible block preempts any ValueError (see the counterexample). -/
theorem c7_first_block_infeasible_valueerror (st : OrbState) (ndim : Nat) (c0 n0 : Int)
    (hm : 0 < st.nmatrices)
    (hc : st.connections.get? 0 = some c0)
    (hn : st.num_electrons_spin.get? 0 = some n0)
    (hbig : (ndim : Int) < n0) :
    add_random st ndim = Except.error (PyErr.valueError randintEmptyMsg) := by
  unfold add_random
  obtain ⟨m, hm'⟩ := Nat.exists_eq_add_of_lt hm
  rw [hm']
  show addRandomGo st ndim [] (m + 1) 0 = _
  unfold addRandomGo
  rw [hc]
  simp only [List.not_mem_nil, if_false]
  rw [hn]
  simp [valList_eq_nil_of_gt ndim n0 hbig]

/-- Witness for C7 at the concrete state stC7w (one block, 6 electrons,
ndim = 5). -/
theorem c7_first_block_infeasible_valueerror_witness :
    0 < stC7w.nmatrices ∧
    stC7w.connections.get? 0 = some 0 ∧
    stC7w.num_electrons_spin.get? 0 = some 6 ∧
    ((5 : Nat) : Int) < 6 ∧
    add_random stC7w 5 = Except.error (PyErr.valueError randintEmptyMsg) :=
  ⟨by decide, rfl, rfl, by decide,
    c7_first_block_infeasible_valueerror stC7w 5 0 6 (by decide) rfl rfl (by decide)⟩

/-- C10 counterexample: in the collinear ferromagnetic configuration with
nmatrices = 2 x natpawu, add_random does not complete: it raises
AttributeError at the first fresh block. -/
theorem c10_counterexample :
    add_random stC10 5 = Except.error (PyErr.attributeError tupleFlattenMsg) := rfl

theorem addRandomGo_never_ok (st : OrbState) (ndim : Nat) (defined : List Int) :
    ∀ fuel i, exceptOk (addRandomGo st ndim defined fuel i) = false := by
  intro fuel
  induction fuel with
  | zero => intro i; rfl
  | succ k ih =>
    intro i
    unfold addRandomGo
    cases st.connections.get? i with
    | none => rfl
    | some c =>
      by_cases hc : c ∈ defined
      · simp only [hc, if_true]
        exact ih (i + 1)
      · simp only [hc, if_false]
        cases st.num_electrons_spin.get? i with
        | none => rfl
        | some nelect =>
          by_cases hv : (valList ndim nelect).isEmpty
          · simp [hv, exceptOk]
          · simp [hv, exceptOk]

/-- C10 (amended): add_random never completes, for any configuration: every
run ends in a raised exception (AttributeError from the tuple flatten at the
first fresh block, ValueError when that block has no feasible occupation
vector, IndexError on a short list, or AttributeError from new_entry when
nmatrices = 0), so execution never reaches the out-of-bounds row writes at
block indices i >= natpawu that the natpawu-row allocation would admit. -/
theorem c10_add_random_never_completes :
    ∀ (st : OrbState) (ndim : Nat), exceptOk (add_random st ndim) = false := by
  intro st ndim
  exact addRandomGo_never_ok st ndim [] st.nmatrices 0

/-- The params dictionary handled by the codec: the flattened occupation,
delta and rotation components, as stored by new_entry. -/
structure Params where
  O : List Int
  D : List Rat
  R : List Rat
  deriving DecidableEq, Repr

/-- Split a flat list into consecutive rows of length ndim; fuel bounds the
recursion by the length of the list. -/
def chunkRows {α : Type} (ndim : Nat) : Nat → List α → List (List α)
  | 0, _ => []
  | fuel + 1, l =>
    if l.isEmpty then [] else l.take ndim :: chunkRows ndim fuel (l.drop ndim)

/-- np.array(xs).reshape((-1, ndim)): rows of length ndim, ValueError when
the total size is not a multiple of ndim. -/
def reshapeRows {α : Type} (ndim : Nat) (l : List α) : Except PyErr (List (List α)) :=
  if 0 < ndim ∧ ndim ∣ l.length then Except.ok (chunkRows ndim l.length l)
  else Except.error (PyErr.valueError "cannot reshape array")

/-- params_reshaped (lines 319-331): reorder and reshape the components;
the rotation component is reshaped to (-1, ndim, ndim), modelled as rows of
length ndim * ndim. -/
def params_reshaped (p : Params) (ndim : Nat) :
    Except PyErr (List (List Int) × List (List Rat) × List (List Rat)) := do
  let matrix_o ← reshapeRows ndim p.O
  let matrix_d ← reshapeRows ndim p.D
  let matrix_r ← reshapeRows (ndim * ndim) p.R
  pure (matrix_o, matrix_d, matrix_r)

/-- params2dmatpawu (lines 334-355).  Line 343 unpacks params_reshaped into
matrix_o, ddd and eigvec; line 345 then evaluates np.array(iii, dtype=float),
and the name iii is not defined anywhere in the module (nor as a global), so
every call that survives the reshape raises NameError. -/
def params2dmatpawu (p : Params) (ndim : Nat) : Except PyErr (List (List Rat)) := do
  let _ ← params_reshaped p ndim
  Except.error (PyErr.nameError "name iii is not defined")

/-- C1: the decoder params2dmatpawu never returns a value: for every params
and every ndim the call raises (NameError from the undefined name iii when
the reshape succeeds, ValueError otherwise), so decode applied to the
encoding of a matrix M never yields M. -/
theorem c1_decode_never_returns :
    ∀ (p : Params) (ndim : Nat), exceptOk (params2dmatpawu p ndim) = false := by
  intro p ndim
  unfold params2dmatpawu
  cases h : params_reshaped p ndim with
  | ok v => rfl
  | error e => rfl

/-- Lines 376-377 of dmatpawu2params: mirror = np.eye(ndim) with the (0,0)
entry overwritten to -1, i.e. the diagonal matrix with -1 in position (0,0)
and 1 on the rest of the diagonal.  The dimension is written n + 1 so that
index 0 exists. -/
def mirror (n : Nat) : Matrix (Fin (n + 1)) (Fin (n + 1)) Rat :=
  Matrix.diagonal (fun i => if i = 0 then -1 else 1)

/-- The body of the normalization loop of dmatpawu2params (lines 379-381):
when the eigenvector matrix has negative determinant it is right-multiplied
by mirror, otherwise left unchanged. -/
def detNormalize (n : Nat) (R : Matrix (Fin (n + 1)) (Fin (n + 1)) Rat) :
    Matrix (Fin (n + 1)) (Fin (n + 1)) Rat :=
  if R.det < 0 then R * mirror n else R

/-- The loop of lines 379-381 over the whole stack matrix_r of eigenvector
matrices returned by the eigensolver (np.linalg.eigh, the external numeric
collaborator, whose outputs are orthogonal matrices, hence of determinant
1 or -1). -/
def dmatpawu2params_rstack (n : Nat)
    (rs : List (Matrix (Fin (n + 1)) (Fin (n + 1)) Rat)) :
    List (Matrix (Fin (n + 1)) (Fin (n + 1)) Rat) :=
  rs.map (detNormalize n)

theorem mirror_det (n : Nat) : (mirror n).det = -1 := by
  unfold mirror
  rw [Matrix.det_diagonal]
  rw [Finset.prod_ite_eq' Finset.univ (0 : Fin (n + 1)) (fun _ => (-1 : Rat))]
  simp

/-- C4: for every stack of eigenvector matrices of determinant 1 or -1 (the
contract of the external symmetric eigensolver), every rotation matrix
returned by the encoder loop has determinant exactly +1; and whenever the
eigensolver matrix has negative determinant, the loop right-multiplies it by
the diagonal mirror, which flips exactly the sign of column 0 (the first
eigenvector) and leaves every other entry unchanged. -/
theorem c4_det_normalization (n : Nat)
    (rs : List (Matrix (Fin (n + 1)) (Fin (n + 1)) Rat))
    (h : ∀ R ∈ rs, R.det = 1 ∨ R.det = -1) :
    (∀ S ∈ dmatpawu2params_rstack n rs, S.det = 1) ∧
    (∀ R ∈ rs, R.det < 0 →
      ∀ i j, detNormalize n R i j = if j = 0 then -(R i j) else R i j) := by
  constructor
  · intro S hS
    unfold dmatpawu2params_rstack at hS
    rw [List.mem_map] at hS
    obtain ⟨R, hR, rfl⟩ := hS
    unfold detNormalize
    rcases h R hR with h1 | h1
    · rw [if_neg (by rw [h1]; norm_num)]
      exact h1
    · rw [if_pos (by rw [h1]; norm_num)]
      rw [Matrix.det_mul, mirror_det, h1]
      norm_num
  · intro R _ hneg i j
    unfold detNormalize
    rw [if_pos hneg]
    unfold mirror
    rw [Matrix.mul_diagonal]
    by_cases hj : j = 0
    · simp [hj]
    · simp [hj]

/-- A 2 x 2 permutation matrix with determinant -1, standing for a concrete
eigensolver output needing the sign flip. -/
def swapMat : Matrix (Fin 2) (Fin 2) Rat := Matrix.of ![![0, 1], ![1, 0]]

theorem swapMat_det : swapMat.det = -1 := by
  rw [Matrix.det_fin_two]
  simp [swapMat]

/-- Witness for C4 at the concrete one-element stack [swapMat]. -/
theorem c4_det_normalization_witness :
    (∀ R ∈ [swapMat], R.det = 1 ∨ R.det = -1) ∧
    ((∀ S ∈ dmatpawu2params_rstack 1 [swapMat], S.det = 1) ∧
     (∀ R ∈ [swapMat], R.det < 0 →
       ∀ i j, detNormalize 1 R i j = if j = 0 then -(R i j) else R i j)) := by
  have h : ∀ R ∈ [swapMat], R.det = 1 ∨ R.det = -1 := by
    intro R hR
    rw [List.mem_singleton] at hR
    subst hR
    right
    exact swapMat_det
  exact ⟨h, c4_det_normalization 1 [swapMat] h⟩

/-- Python dict lookup d[k] for string keys: KeyError when absent. -/
def dictGet (d : List (String × List Rat)) (k : String) : Except PyErr (List Rat) :=
  match d.find? (fun kv => kv.1 == k) with
  | some kv => Except.ok kv.2
  | none => Except.error (PyErr.keyError k)

/-- The properties dictionary written by new_entry (lines 219-221): the keys
are R, D and O, mapped to the flattened component lists. -/
def new_entry_properties (r d o : List Rat) : List (String × List Rat) :=
  [("R", r), ("D", d), ("O", o)]

/-- distance (lines 251-269), applied to the properties dictionaries of the
two fetched entries (get_entry is the external persistence provider).
np.linalg.norm is the external euclidean norm, abstracted as nrm.  The code
reads the keys P and d of each properties dictionary, in source order. -/
def distance (nrm : List Rat → Rat)
    (props_i props_j : List (String × List Rat)) : Except PyErr Rat := do
  let dmat_i ← dictGet props_i "P"
  let dmat_j ← dictGet props_j "P"
  let dist_p := nrm (List.zipWith (fun b a => b - a) dmat_j dmat_i)
  let dmat_i2 ← dictGet props_i "d"
  let dmat_j2 ← dictGet props_j "d"
  let dist_d := nrm (List.zipWith (fun b a => b - a) dmat_j2 dmat_i2)
  pure (dist_d + dist_p)

/-- move (lines 288-303), applied to the properties dictionaries of the two
fetched entries.  The interpolation dmat_i += factor * (dmat_j - dmat_i) is
computed on a local numpy copy (np.array copies the stored list) and is
never written back to the store; the stored properties of the first entry
are returned unchanged to make the absence of any write observable. -/
def move (props_i props_j : List (String × List Rat)) (factor : Rat) :
    Except PyErr (List (String × List Rat)) := do
  let dmat_i ← dictGet props_i "P"
  let dmat_j ← dictGet props_j "P"
  let _dmat_new := List.zipWith (fun a b => a + factor * (b - a)) dmat_i dmat_j
  pure props_i

/-- C9: on entries created by new_entry (properties keys R, D, O), distance
raises KeyError for the key P in place of returning the sum of the two
euclidean norms, whichever norm function the external numpy routine
computes. -/
theorem c9_distance_keyerror :
    ∀ nrm : List Rat → Rat,
      distance nrm (new_entry_properties [1, 0, 0, 1] [0, 0] [1, 1])
                   (new_entry_properties [0, 1, 1, 0] [0, 0] [0, 1]) =
        Except.error (PyErr.keyError "P") :=
  fun _ => rfl

/-- C6: on entries created by new_entry (properties keys R, D, O), move
raises KeyError for the key P in place of updating the stored rotation block
of the first entry, at factor 1/2 as at any other factor. -/
theorem c6_move_keyerror :
    move (new_entry_properties [1, 0, 0, 1] [0, 0] [1, 1])
         (new_entry_properties [0, 1, 1, 0] [0, 0] [0, 1]) (1 / 2) =
      Except.error (PyErr.keyError "P") := rfl

end OrbitalDftu
